import Mathlib

/-!
Shallow embedding of `src/src/memory_buffer.hpp` (template class `MemoryBuffer<T>`).

Modelling choices, all read off the C++ source:
* An allocation is a byte array (`List Nat`); the heap is a list of slots
  indexed by allocation id, `none` marking a freed slot.  A C++ pointer is the
  slot index (`Option Nat`, `none` = `nullptr`).
* The element type `T` is abstracted by its byte width `w = sizeof(T)`;
  elements are `w`-byte chunks of an allocation.
* The build flag `__GPU__` is the boolean parameter `gpu`; code under
  `#ifdef __GPU__` runs only when `gpu = true`, code under `#ifndef __GPU__`
  only when `gpu = false`.
* A C++ exception is `CppError`; a member function that can throw returns the
  post-throw state together with `Option CppError` (the object survives the
  exception with whatever field values it had), while a constructor returns
  `Except CppError _` (no object is produced on throw).
-/

namespace AstroIO

/-- The C++ `enum class MemoryType` of memory_buffer.hpp. -/
inductive MemoryType where
  | PAGEABLE
  | PINNED
  | DEVICE
  | MANAGED
deriving DecidableEq, Repr

/-- Exceptions thrown by the buffer code (`std::invalid_argument`, `std::runtime_error`). -/
inductive CppError where
  | invalid_argument (msg : String)
  | runtime_error (msg : String)
deriving DecidableEq, Repr

/-- The heap: a slot per allocation event, holding the byte contents of the
block while it is live and `none` once it has been freed. -/
structure Heap where
  blocks : List (Option (List Nat))
deriving DecidableEq, Repr

/-- Allocate a fresh block holding the given bytes; returns the new heap and
the pointer (slot index) of the block. -/
def Heap.alloc (h : Heap) (bytes : List Nat) : Heap × Nat :=
  (⟨h.blocks ++ [some bytes]⟩, h.blocks.length)

/-- Free the block at pointer `p` (`delete[]`, `gpuFree`, `gpuHostFree`). -/
def Heap.free (h : Heap) (p : Nat) : Heap :=
  ⟨h.blocks.set p none⟩

/-- Is the block at pointer `p` still live? -/
def Heap.isLive (h : Heap) (p : Nat) : Bool :=
  (h.blocks.getD p none).isSome

/-- The bytes stored at pointer `p` (junk `[]` if the slot is freed or absent). -/
def Heap.bytesAt (h : Heap) (p : Nat) : List Nat :=
  (h.blocks.getD p none).getD []

/-- Overwrite `v.length` bytes of the block at `p`, starting at byte offset `off`. -/
def Heap.writeBytes (h : Heap) (p : Nat) (off : Nat) (v : List Nat) : Heap :=
  match h.blocks.getD p none with
  | none => h
  | some bs => ⟨h.blocks.set p (some (bs.take off ++ v ++ bs.drop (off + v.length)))⟩

/-- Message of the non-pageable-residency `std::invalid_argument` (thrown under
`#ifndef __GPU__` by `allocate` and the adoption constructor). -/
def msgNotPageable : String :=
  "MemoryBuffer constructor: cannot use anything other than pageable memory on a CPU only build of the software."

/-- Message of the zero-count `std::invalid_argument` thrown by `allocate`. -/
def msgAllocZero : String :=
  "MemoryBuffer::allocate: n_elements must be a positive number."

/-- Message of the zero-count `std::invalid_argument` thrown by the adoption
constructor. -/
def msgCtorZero : String :=
  "MemoryBuffer constructor: n_elements must be a positive number."

/-- Message of the null-pointer `std::invalid_argument` thrown by the adoption
constructor. -/
def msgCtorNull : String :=
  "MemoryBuffer constructor: will not accept a null pointer."

/-- The fields of `MemoryBuffer<T>`: `T* _data` (pointer or null), `size_t n`,
`MemoryType mem_type`. -/
structure MemoryBuffer where
  _data : Option Nat
  n : Nat
  mem_type : MemoryType
deriving DecidableEq, Repr

/-- `size()`: returns the field `n`. -/
def MemoryBuffer.size (b : MemoryBuffer) : Nat := b.n

/-- `data()`: returns the raw pointer `_data`. -/
def MemoryBuffer.dataPtr (b : MemoryBuffer) : Option Nat := b._data

/-- The `explicit operator bool()`: `_data == nullptr ? false : true`. -/
def MemoryBuffer.toBool (b : MemoryBuffer) : Bool := b._data.isSome

/-- `on_gpu()`: `mem_type == MemoryType::DEVICE`. -/
def MemoryBuffer.on_gpu (b : MemoryBuffer) : Bool := b.mem_type = MemoryType.DEVICE

/-- `pinned()`: `mem_type == MemoryType::PINNED`. -/
def MemoryBuffer.pinned (b : MemoryBuffer) : Bool := b.mem_type = MemoryType.PINNED

/-- The default constructor `MemoryBuffer()`: null pointer, `n {0}`; the C++
field `mem_type` is left indeterminate, modelled by taking it as a parameter. -/
def MemoryBuffer.mkDefault (mt : MemoryType) : MemoryBuffer :=
  ⟨none, 0, mt⟩

/-- The spec invariant `storage == null iff count == 0` on the fields of a buffer. -/
def MemoryBuffer.inv (b : MemoryBuffer) : Prop :=
  b._data = none ↔ b.n = 0

instance (b : MemoryBuffer) : Decidable b.inv := by
  unfold MemoryBuffer.inv; infer_instance

/-- The destructor `~MemoryBuffer()`: frees `_data` according to `mem_type`
(non-pageable strategies only exist under `__GPU__`).  Note it does not null
the pointer field. -/
def MemoryBuffer.destructor (gpu : Bool) (h : Heap) (b : MemoryBuffer) : Heap :=
  match b._data with
  | none => h
  | some p =>
    if b.mem_type = MemoryType.PAGEABLE then h.free p
    else if gpu = true then h.free p
    else h

/-- `allocate(n_elements, mem_type)`.  Faithful to the source order: it first
runs `if(_data) this->~MemoryBuffer();`, then validates the residency (on
non-GPU builds) and `n_elements`, throwing `std::invalid_argument`, and only
then allocates and updates the fields.  On a throw the fields keep their old
values (C++ object survives), returned alongside the error. -/
def MemoryBuffer.allocate (gpu : Bool) (w : Nat) (h : Heap) (b : MemoryBuffer)
    (n_elements : Nat) (mt : MemoryType) : Heap × MemoryBuffer × Option CppError :=
  let h1 := if b._data.isSome then MemoryBuffer.destructor gpu h b else h
  if gpu = false ∧ mt ≠ MemoryType.PAGEABLE then
    (h1, b, some (CppError.invalid_argument msgNotPageable))
  else if n_elements = 0 then
    (h1, b, some (CppError.invalid_argument msgAllocZero))
  else
    let res := h1.alloc (List.replicate (n_elements * w) 0)
    (res.1, ⟨some res.2, n_elements, mt⟩, none)

/-- The adoption constructor `MemoryBuffer(T *buffer, size_t n_elements,
MemoryType mem_type)`: on non-GPU builds rejects non-pageable residency, then
rejects `n_elements == 0`, then rejects a null pointer; otherwise adopts the
pointer without copying. -/
def MemoryBuffer.mkAdopt (gpu : Bool) (buffer : Option Nat) (n_elements : Nat)
    (mt : MemoryType) : Except CppError MemoryBuffer :=
  if gpu = false ∧ mt ≠ MemoryType.PAGEABLE then
    .error (.invalid_argument msgNotPageable)
  else if n_elements = 0 then
    .error (.invalid_argument msgCtorZero)
  else
    match buffer with
    | none => .error (.invalid_argument msgCtorNull)
    | some p => .ok ⟨some p, n_elements, mt⟩

/-- `to_cpu(to_type)`: whole body is under `#ifdef __GPU__`; only acts when
`mem_type == DEVICE` and `_data` is non-null, allocating a host block
(pinned when `to_type == PINNED`, else pageable), copying `n * sizeof(T)`
bytes device-to-host, freeing the device block, and installing the new one. -/
def MemoryBuffer.to_cpu (gpu : Bool) (w : Nat) (h : Heap) (b : MemoryBuffer)
    (to_type : MemoryType) : Heap × MemoryBuffer :=
  match b._data with
  | some p =>
    if gpu = true ∧ b.mem_type = MemoryType.DEVICE then
      let newType := if to_type = MemoryType.PINNED then MemoryType.PINNED else MemoryType.PAGEABLE
      let res := h.alloc ((h.bytesAt p).take (b.n * w))
      ((res.1.free p : Heap), ⟨some res.2, b.n, newType⟩)
    else (h, b)
  | none => (h, b)

/-- `to_gpu()`: whole body is under `#ifdef __GPU__`; only acts when
`mem_type != DEVICE` and `_data` is non-null, allocating a device block,
copying `n * sizeof(T)` bytes, freeing the old block, and setting
`mem_type = DEVICE`. -/
def MemoryBuffer.to_gpu (gpu : Bool) (w : Nat) (h : Heap) (b : MemoryBuffer) :
    Heap × MemoryBuffer :=
  match b._data with
  | some p =>
    if gpu = true ∧ b.mem_type ≠ MemoryType.DEVICE then
      let res := h.alloc ((h.bytesAt p).take (b.n * w))
      ((res.1.free p : Heap), ⟨some res.2, b.n, MemoryType.DEVICE⟩)
    else (h, b)
  | none => (h, b)

/-- `dump(filename)`: runs `to_cpu()` (pageable target), then writes
`n * sizeof(T)` raw bytes from `_data` to the file.  The produced file
contents are returned as the third component. -/
def MemoryBuffer.dump (gpu : Bool) (w : Nat) (h : Heap) (b : MemoryBuffer) :
    Heap × MemoryBuffer × List Nat :=
  let hc := MemoryBuffer.to_cpu gpu w h b MemoryType.PAGEABLE
  let bytes := match hc.2._data with
    | some p => (hc.1.bytesAt p).take (hc.2.n * w)
    | none => []
  (hc.1, hc.2, bytes)

/-- `from_dump(filename)`: reads the whole file (`size` bytes into a fresh
`new char[size]` block) and delegates to the adoption constructor with
element count `size / sizeof(T)` and pageable residency. -/
def MemoryBuffer.from_dump (gpu : Bool) (w : Nat) (h : Heap) (file : List Nat) :
    Except CppError (Heap × MemoryBuffer) :=
  let size := file.length
  let res := h.alloc file
  match MemoryBuffer.mkAdopt gpu (some res.2) (size / w) MemoryType.PAGEABLE with
  | .ok b => .ok (res.1, b)
  | .error e => .error e

/-- The copy constructor `MemoryBuffer(const MemoryBuffer&)`: copies `n` and
`mem_type`, initialises `_data = nullptr`, and only when the source pointer is
non-null allocates fresh storage by the source residency strategy (the
non-pageable strategies exist only under `__GPU__`) and copies
`n * sizeof(T)` bytes. -/
def MemoryBuffer.copyCtor (gpu : Bool) (w : Nat) (h : Heap) (other : MemoryBuffer) :
    Heap × MemoryBuffer :=
  match other._data with
  | none => (h, ⟨none, other.n, other.mem_type⟩)
  | some p =>
    if other.mem_type = MemoryType.PAGEABLE ∨ gpu = true then
      let res := h.alloc ((h.bytesAt p).take (other.n * w))
      (res.1, ⟨some res.2, other.n, other.mem_type⟩)
    else (h, ⟨none, other.n, other.mem_type⟩)

/-- Copy assignment `operator=(const MemoryBuffer&)`: returns `*this`
unchanged on self-assignment (`this == &other`, the `isSelf` flag); otherwise
destructs the current storage if any, copies `n` and `mem_type`, and
allocates-and-copies only when the source pointer is non-null — note the
source leaves the old `_data` field in place when no branch fires. -/
def MemoryBuffer.copyAssign (gpu : Bool) (w : Nat) (h : Heap) (dst other : MemoryBuffer)
    (isSelf : Bool) : Heap × MemoryBuffer :=
  if isSelf = true then (h, dst)
  else
    let h1 := if dst._data.isSome then MemoryBuffer.destructor gpu h dst else h
    match other._data with
    | none => (h1, ⟨dst._data, other.n, other.mem_type⟩)
    | some p =>
      if other.mem_type = MemoryType.PAGEABLE ∨ gpu = true then
        let res := h1.alloc ((h1.bytesAt p).take (other.n * w))
        (res.1, ⟨some res.2, other.n, other.mem_type⟩)
      else (h1, ⟨dst._data, other.n, other.mem_type⟩)

/-- The move constructor `MemoryBuffer(MemoryBuffer&&)`: the new object takes
`n`, `mem_type` and `_data` from the source, and the source pointer is nulled
(the source count `n` is not touched).  Returns (destination, source after). -/
def MemoryBuffer.moveCtor (other : MemoryBuffer) : MemoryBuffer × MemoryBuffer :=
  (⟨other._data, other.n, other.mem_type⟩, ⟨none, other.n, other.mem_type⟩)

/-- Move assignment `operator=(MemoryBuffer&&)`: destructs the current storage
if any, takes the three fields from the source, and nulls the source pointer
(the source count `n` is not touched).  Returns (heap, destination, source after). -/
def MemoryBuffer.moveAssign (gpu : Bool) (h : Heap) (dst other : MemoryBuffer) :
    Heap × MemoryBuffer × MemoryBuffer :=
  let h1 := if dst._data.isSome then MemoryBuffer.destructor gpu h dst else h
  (h1, ⟨other._data, other.n, other.mem_type⟩, ⟨none, other.n, other.mem_type⟩)

/-- A store through `operator[]`: writes the `w` bytes of element `i` of the
buffer (no bounds check in the source; no-op on a null pointer, which in C++
would be undefined). -/
def MemoryBuffer.writeElem (w : Nat) (h : Heap) (b : MemoryBuffer) (i : Nat)
    (v : List Nat) : Heap :=
  match b._data with
  | none => h
  | some p => h.writeBytes p (i * w) v

/-- A load through `operator[]`: the `w` bytes of element `i` of the buffer. -/
def MemoryBuffer.readElem (w : Nat) (h : Heap) (b : MemoryBuffer) (i : Nat) : List Nat :=
  match b._data with
  | none => []
  | some p => ((h.bytesAt p).drop (i * w)).take w

/-- C4: for every `n > 0` and every residency supported by the build
(`gpu = true` allows all four, otherwise only `PAGEABLE`), `allocate(n, r)`
succeeds and afterwards `size() == n` with a non-null pointer; and
`allocate(0, r)` fails with an invalid-argument error for every residency. -/
theorem C4_allocate_spec (gpu : Bool) (w : Nat) (h : Heap) (b : MemoryBuffer)
    (n : Nat) (mt : MemoryType) (hn : 0 < n)
    (hsup : gpu = true ∨ mt = MemoryType.PAGEABLE) :
    (∃ h2 p, MemoryBuffer.allocate gpu w h b n mt = (h2, ⟨some p, n, mt⟩, none))
    ∧ (∀ mt2, ∃ msg,
        (MemoryBuffer.allocate gpu w h b 0 mt2).2.2 = some (CppError.invalid_argument msg)) := by
  have hc : ¬ (gpu = false ∧ mt ≠ MemoryType.PAGEABLE) := by
    rcases hsup with hg | hm
    · simp [hg]
    · simp [hm]
  constructor
  · refine ⟨((if b._data.isSome then MemoryBuffer.destructor gpu h b else h).alloc
        (List.replicate (n * w) 0)).1,
      (if b._data.isSome then MemoryBuffer.destructor gpu h b else h).blocks.length, ?_⟩
    simp [MemoryBuffer.allocate, hc, hn.ne', Heap.alloc]
  · intro mt2
    by_cases hc2 : gpu = false ∧ mt2 ≠ MemoryType.PAGEABLE
    · exact ⟨msgNotPageable, by simp [MemoryBuffer.allocate, hc2]⟩
    · exact ⟨msgAllocZero, by simp [MemoryBuffer.allocate, hc2]⟩

/-- Witness for C4 at a concrete input: a CPU-only build, 4-byte elements,
empty heap and default buffer. -/
theorem C4_allocate_spec_witness :
    (∃ h2 p, MemoryBuffer.allocate false 4 ⟨[]⟩ (MemoryBuffer.mkDefault MemoryType.PAGEABLE)
        1 MemoryType.PAGEABLE = (h2, ⟨some p, 1, MemoryType.PAGEABLE⟩, none))
    ∧ (∀ mt2, ∃ msg,
        (MemoryBuffer.allocate false 4 ⟨[]⟩ (MemoryBuffer.mkDefault MemoryType.PAGEABLE)
          0 mt2).2.2 = some (CppError.invalid_argument msg)) :=
  C4_allocate_spec false 4 ⟨[]⟩ (MemoryBuffer.mkDefault MemoryType.PAGEABLE) 1
    MemoryType.PAGEABLE (by decide) (Or.inr rfl)

/-- C5: the adoption constructor fails with invalid-argument on a null
pointer, on `n_elements == 0`, or on a non-pageable residency in a CPU-only
build; otherwise it adopts the pointer without copying, so afterwards the
pointer, count and residency are exactly the given ones. -/
theorem C5_adopt_spec (gpu : Bool) (buf : Option Nat) (n : Nat) (mt : MemoryType) :
    ((buf = none ∨ n = 0 ∨ (gpu = false ∧ mt ≠ MemoryType.PAGEABLE)) →
      ∃ msg, MemoryBuffer.mkAdopt gpu buf n mt = .error (.invalid_argument msg))
    ∧ (∀ p, buf = some p → 0 < n → (gpu = true ∨ mt = MemoryType.PAGEABLE) →
      MemoryBuffer.mkAdopt gpu buf n mt = .ok ⟨some p, n, mt⟩) := by
  constructor
  · intro hbad
    by_cases h1 : gpu = false ∧ mt ≠ MemoryType.PAGEABLE
    · exact ⟨msgNotPageable, by simp [MemoryBuffer.mkAdopt, h1]⟩
    · by_cases h2 : n = 0
      · exact ⟨msgCtorZero, by simp [MemoryBuffer.mkAdopt, h1, h2]⟩
      · rcases hbad with hb | hb | hb
        · subst hb; exact ⟨msgCtorNull, by simp [MemoryBuffer.mkAdopt, h1, h2]⟩
        · exact absurd hb h2
        · exact absurd hb h1
  · intro p hp hn hsup
    have h1 : ¬ (gpu = false ∧ mt ≠ MemoryType.PAGEABLE) := by
      rcases hsup with hg | hm
      · simp [hg]
      · simp [hm]
    subst hp
    simp [MemoryBuffer.mkAdopt, h1, hn.ne']

/-- Witness for C5 at concrete inputs: on a CPU-only build, adopting pointer 3
with count 0 fails, and adopting pointer 3 with count 2 and pageable
residency succeeds with exactly those fields. -/
theorem C5_adopt_spec_witness :
    (∃ msg, MemoryBuffer.mkAdopt false (some 3) 0 MemoryType.PAGEABLE
        = .error (.invalid_argument msg))
    ∧ MemoryBuffer.mkAdopt false (some 3) 2 MemoryType.PAGEABLE
        = .ok ⟨some 3, 2, MemoryType.PAGEABLE⟩ :=
  ⟨(C5_adopt_spec false (some 3) 0 MemoryType.PAGEABLE).1 (Or.inr (Or.inl rfl)),
   (C5_adopt_spec false (some 3) 2 MemoryType.PAGEABLE).2 3 rfl (by decide) (Or.inr rfl)⟩

/-- Helper: `to_cpu` is a no-op on a buffer already in a host residency. -/
theorem to_cpu_host_noop (gpu : Bool) (w : Nat) (h : Heap) (b : MemoryBuffer)
    (tt : MemoryType)
    (hhost : b.mem_type = MemoryType.PAGEABLE ∨ b.mem_type = MemoryType.PINNED) :
    MemoryBuffer.to_cpu gpu w h b tt = (h, b) := by
  have hm : ¬ (gpu = true ∧ b.mem_type = MemoryType.DEVICE) := by
    rcases hhost with h1 | h1 <;> simp [h1]
  unfold MemoryBuffer.to_cpu
  cases hd : b._data with
  | none => rfl
  | some p => simp [hm]

/-- C6: on a buffer whose residency is already a host variant (pageable or
pinned), `to_cpu` leaves the heap and the whole buffer (handle, count, data,
residency) unchanged, and a second consecutive call yields the same state as
a single call. -/
theorem C6_to_host_idempotent (gpu : Bool) (w : Nat) (h : Heap) (b : MemoryBuffer)
    (tt : MemoryType)
    (hhost : b.mem_type = MemoryType.PAGEABLE ∨ b.mem_type = MemoryType.PINNED) :
    MemoryBuffer.to_cpu gpu w h b tt = (h, b)
    ∧ MemoryBuffer.to_cpu gpu w (MemoryBuffer.to_cpu gpu w h b tt).1
        (MemoryBuffer.to_cpu gpu w h b tt).2 tt = MemoryBuffer.to_cpu gpu w h b tt := by
  have key := to_cpu_host_noop gpu w h b tt hhost
  refine ⟨key, ?_⟩
  rw [key]
  exact key

/-- Witness for C6 at a concrete input: a populated pageable buffer on a
GPU-enabled build. -/
theorem C6_to_host_idempotent_witness :
    MemoryBuffer.to_cpu true 4 ⟨[some [1, 2, 3, 4]]⟩ ⟨some 0, 1, MemoryType.PAGEABLE⟩
        MemoryType.PAGEABLE
      = (⟨[some [1, 2, 3, 4]]⟩, ⟨some 0, 1, MemoryType.PAGEABLE⟩) :=
  (C6_to_host_idempotent true 4 ⟨[some [1, 2, 3, 4]]⟩ ⟨some 0, 1, MemoryType.PAGEABLE⟩
    MemoryType.PAGEABLE (Or.inl rfl)).1

/-- C10: for a file smaller than one element (including an empty file),
`from_dump` throws invalid-argument, because the inferred count
`size / sizeof(T)` is 0 and the adoption constructor rejects it. -/
theorem C10_from_dump_small_file (gpu : Bool) (w : Nat) (h : Heap) (file : List Nat)
    (hs : file.length < w) :
    ∃ msg, MemoryBuffer.from_dump gpu w h file = .error (CppError.invalid_argument msg) := by
  have hdiv : file.length / w = 0 := Nat.div_eq_of_lt hs
  exact ⟨msgCtorZero, by simp [MemoryBuffer.from_dump, MemoryBuffer.mkAdopt, hdiv]⟩

/-- Witness for C10 at a concrete input: a one-byte file with 4-byte elements. -/
theorem C10_from_dump_small_file_witness :
    ∃ msg, MemoryBuffer.from_dump false 4 ⟨[]⟩ [9]
      = .error (CppError.invalid_argument msg) :=
  C10_from_dump_small_file false 4 ⟨[]⟩ [9] (by decide)

/-- C1 (evaluation at the failing input): `allocate` runs
`if(_data) this->~MemoryBuffer();` before validating its arguments, so the
failing call `allocate(0, PAGEABLE)` on a populated buffer releases the
existing storage and only then throws invalid-argument: afterwards the
buffer fields are unchanged but the block its handle refers to has been
freed during the failed call (dangling handle, double free on destruction). -/
theorem C1_allocate_frees_before_validation :
    MemoryBuffer.allocate false 4 ⟨[some [7, 7, 7, 7]]⟩ ⟨some 0, 1, MemoryType.PAGEABLE⟩ 0
        MemoryType.PAGEABLE
      = (⟨[none]⟩, ⟨some 0, 1, MemoryType.PAGEABLE⟩,
         some (CppError.invalid_argument msgAllocZero))
    ∧ Heap.isLive ⟨[some [7, 7, 7, 7]]⟩ 0 = true
    ∧ Heap.isLive ⟨[none]⟩ 0 = false :=
  ⟨rfl, rfl, rfl⟩

/-- C2 counterexample: moving from the populated buffer with pointer 0 and
count 2 nulls its handle but leaves `size()` at 2, so the moved-from buffer
is not in the empty state (`size() == 0`) the claim requires. -/
theorem C2_move_counterexample :
    (MemoryBuffer.mk (some 0) 2 MemoryType.PAGEABLE).toBool = true
    ∧ (MemoryBuffer.moveCtor ⟨some 0, 2, MemoryType.PAGEABLE⟩).2._data = none
    ∧ (MemoryBuffer.moveCtor ⟨some 0, 2, MemoryType.PAGEABLE⟩).2.size = 2
    ∧ ¬ (MemoryBuffer.moveCtor ⟨some 0, 2, MemoryType.PAGEABLE⟩).2.size = 0 :=
  ⟨rfl, rfl, rfl, by decide⟩

/-- C2 amended: after moving from a populated buffer (by move construction or
move assignment) the destination holds exactly the source pointer, count and
residency, and the source handle is null so destroying the source releases
nothing; but the source count keeps its pre-move value, so its `size()` is
its old count rather than 0. -/
theorem C2_move_amended (gpu : Bool) (h hd : Heap) (b dst : MemoryBuffer)
    (hpop : b._data.isSome = true) :
    ((MemoryBuffer.moveCtor b).1 = ⟨b._data, b.n, b.mem_type⟩
      ∧ (MemoryBuffer.moveCtor b).2._data = none
      ∧ (MemoryBuffer.moveCtor b).2.size = b.size
      ∧ MemoryBuffer.destructor gpu h (MemoryBuffer.moveCtor b).2 = h)
    ∧ ((MemoryBuffer.moveAssign gpu hd dst b).2.1 = ⟨b._data, b.n, b.mem_type⟩
      ∧ (MemoryBuffer.moveAssign gpu hd dst b).2.2._data = none
      ∧ (MemoryBuffer.moveAssign gpu hd dst b).2.2.size = b.size
      ∧ MemoryBuffer.destructor gpu h (MemoryBuffer.moveAssign gpu hd dst b).2.2 = h) :=
  ⟨⟨rfl, rfl, rfl, rfl⟩, ⟨rfl, rfl, rfl, rfl⟩⟩

/-- Witness for C2 amended at a concrete populated buffer. -/
theorem C2_move_amended_witness :
    (MemoryBuffer.moveCtor ⟨some 0, 2, MemoryType.PAGEABLE⟩).2._data = none
    ∧ MemoryBuffer.destructor false ⟨[some [1]]⟩
        (MemoryBuffer.moveCtor ⟨some 0, 2, MemoryType.PAGEABLE⟩).2 = ⟨[some [1]]⟩ :=
  ⟨(C2_move_amended false ⟨[some [1]]⟩ ⟨[]⟩ ⟨some 0, 2, MemoryType.PAGEABLE⟩
      (MemoryBuffer.mkDefault MemoryType.PAGEABLE) rfl).1.2.1,
   (C2_move_amended false ⟨[some [1]]⟩ ⟨[]⟩ ⟨some 0, 2, MemoryType.PAGEABLE⟩
      (MemoryBuffer.mkDefault MemoryType.PAGEABLE) rfl).1.2.2.2⟩

/-- C3 counterexample: the populated buffer with pointer 0 and count 2
satisfies the invariant, but after moving from it the source violates it
(null handle, count still 2) — so the invariant is not preserved by move. -/
theorem C3_inv_counterexample :
    (MemoryBuffer.mk (some 0) 2 MemoryType.PAGEABLE).inv
    ∧ ¬ (MemoryBuffer.moveCtor ⟨some 0, 2, MemoryType.PAGEABLE⟩).2.inv :=
  ⟨by decide, by decide⟩

/-- C9: `from_dump` infers the element count of the loaded host-resident
buffer as `file_size / sizeof(T)` (integer division, remainder bytes
silently discarded); with the 4-byte element type of the spec scenario, a
file of `4*sizeof(T)+1 = 17` bytes loads as a buffer of 4 elements. -/
theorem C9_from_dump_count (gpu : Bool) (w : Nat) (h : Heap) (file : List Nat)
    (hw : 0 < w) (hs : w ≤ file.length) :
    (∃ h2 q, MemoryBuffer.from_dump gpu w h file
        = .ok (h2, ⟨some q, file.length / w, MemoryType.PAGEABLE⟩))
    ∧ (∀ file2 : List Nat, file2.length = 4 * 4 + 1 →
        ∃ h2 q, MemoryBuffer.from_dump gpu 4 h file2
          = .ok (h2, ⟨some q, 4, MemoryType.PAGEABLE⟩)) := by
  constructor
  · have hdiv : ¬ file.length / w = 0 := by
      have := (Nat.one_le_div_iff hw).mpr hs
      omega
    refine ⟨⟨h.blocks ++ [some file]⟩, h.blocks.length, ?_⟩
    simp [MemoryBuffer.from_dump, MemoryBuffer.mkAdopt, hdiv, Heap.alloc]
  · intro file2 hlen
    have hdiv2 : file2.length / 4 = 4 := by rw [hlen]
    refine ⟨⟨h.blocks ++ [some file2]⟩, h.blocks.length, ?_⟩
    simp [MemoryBuffer.from_dump, MemoryBuffer.mkAdopt, hdiv2, Heap.alloc]

/-- Witness for C9 at concrete inputs: an 8-byte file with 4-byte elements
loads with count 2, and a 17-byte file with 4-byte elements loads with
count 4. -/
theorem C9_from_dump_count_witness :
    (∃ h2 q, MemoryBuffer.from_dump false 4 ⟨[]⟩ [1, 2, 3, 4, 5, 6, 7, 8]
        = .ok (h2, ⟨some q, [1, 2, 3, 4, 5, 6, 7, 8].length / 4, MemoryType.PAGEABLE⟩))
    ∧ (∃ h2 q, MemoryBuffer.from_dump false 4 ⟨[]⟩ (List.replicate 17 9)
        = .ok (h2, ⟨some q, 4, MemoryType.PAGEABLE⟩)) :=
  ⟨(C9_from_dump_count false 4 ⟨[]⟩ [1, 2, 3, 4, 5, 6, 7, 8] (by decide) (by decide)).1,
   (C9_from_dump_count false 4 ⟨[]⟩ (List.replicate 17 9) (by decide) (by decide)).2
     (List.replicate 17 9) (by simp)⟩

/-- A freshly allocated block holds exactly the requested bytes. -/
theorem Heap.bytesAt_alloc_self (h : Heap) (bs : List Nat) :
    (h.alloc bs).1.bytesAt (h.alloc bs).2 = bs := by
  simp [Heap.alloc, Heap.bytesAt, List.getD_eq_getElem?_getD]

/-- Allocating a fresh block does not change the bytes of an existing block. -/
theorem Heap.bytesAt_alloc_lt (h : Heap) (bs : List Nat) (p : Nat)
    (hp : p < h.blocks.length) :
    (h.alloc bs).1.bytesAt p = h.bytesAt p := by
  simp [Heap.alloc, Heap.bytesAt, List.getD_eq_getElem?_getD, List.getElem?_append_left hp]

/-- Writing into the block at `p` does not change the bytes of a block at a
different pointer `q`. -/
theorem Heap.bytesAt_writeBytes_ne (h : Heap) (p q off : Nat) (v : List Nat)
    (hpq : p ≠ q) :
    (h.writeBytes p off v).bytesAt q = h.bytesAt q := by
  unfold Heap.writeBytes
  cases hb : h.blocks.getD p none with
  | none => rfl
  | some bs =>
    simp [Heap.bytesAt, List.getD_eq_getElem?_getD, List.getElem?_set_ne hpq]

/-- Freeing the block at `r` does not change the bytes of a block at a
different pointer `p`. -/
theorem Heap.bytesAt_free_ne (h : Heap) (r p : Nat) (hrp : ¬ r = p) :
    (h.free r).bytesAt p = h.bytesAt p := by
  simp [Heap.free, Heap.bytesAt, List.getD_eq_getElem?_getD, List.getElem?_set_ne hrp]

/-- Freeing a block keeps the number of heap slots. -/
theorem Heap.free_length (h : Heap) (r : Nat) :
    (h.free r).blocks.length = h.blocks.length := by
  simp [Heap.free]

/-- Running the destructor of a buffer that does not own the block at `p`
leaves the bytes at `p` unchanged. -/
theorem destructor_bytesAt_ne (gpu : Bool) (h : Heap) (dst : MemoryBuffer) (p : Nat)
    (hdp : ¬ dst._data = some p) :
    (MemoryBuffer.destructor gpu h dst).bytesAt p = h.bytesAt p := by
  unfold MemoryBuffer.destructor
  cases hd : dst._data with
  | none => rfl
  | some r =>
    have hrp : ¬ r = p := fun he => hdp (by rw [hd, he])
    by_cases h1 : dst.mem_type = MemoryType.PAGEABLE
    · simp [h1, Heap.bytesAt_free_ne h r p hrp]
    · by_cases h2 : gpu = true
      · simp [h1, h2, Heap.bytesAt_free_ne h r p hrp]
      · simp [h1, h2]

/-- Running a destructor keeps the number of heap slots. -/
theorem destructor_length (gpu : Bool) (h : Heap) (dst : MemoryBuffer) :
    (MemoryBuffer.destructor gpu h dst).blocks.length = h.blocks.length := by
  unfold MemoryBuffer.destructor
  cases dst._data with
  | none => rfl
  | some r =>
    by_cases h1 : dst.mem_type = MemoryType.PAGEABLE
    · simp [h1, Heap.free]
    · by_cases h2 : gpu = true
      · simp [h1, h2, Heap.free]
      · simp [h1, h2]

/-- Invariant-preservation helper: `to_cpu` keeps the spec invariant. -/
theorem to_cpu_keeps_inv (gpu : Bool) (w : Nat) (h : Heap) (b : MemoryBuffer)
    (tt : MemoryType) (hb : b.inv) :
    (MemoryBuffer.to_cpu gpu w h b tt).2.inv := by
  unfold MemoryBuffer.to_cpu
  cases hd : b._data with
  | none => exact hb
  | some p =>
    by_cases hc : gpu = true ∧ b.mem_type = MemoryType.DEVICE
    · have hn0 : ¬ b.n = 0 := fun hz => by
        have := hb.mpr hz
        rw [hd] at this
        cases this
      simp [hc, MemoryBuffer.inv, hn0]
    · simp [hc]
      exact hb

/-- Invariant-preservation helper: `to_gpu` keeps the spec invariant. -/
theorem to_gpu_keeps_inv (gpu : Bool) (w : Nat) (h : Heap) (b : MemoryBuffer)
    (hb : b.inv) :
    (MemoryBuffer.to_gpu gpu w h b).2.inv := by
  unfold MemoryBuffer.to_gpu
  cases hd : b._data with
  | none => exact hb
  | some p =>
    by_cases hc : gpu = true ∧ ¬ b.mem_type = MemoryType.DEVICE
    · have hn0 : ¬ b.n = 0 := fun hz => by
        have := hb.mpr hz
        rw [hd] at this
        cases this
      simp [hc, MemoryBuffer.inv, hn0]
    · simp [hc]
      exact hb

/-- C3 amended: the invariant (null handle iff zero count) holds for the
default-constructed buffer and is preserved by a successful `allocate`, by
the adoption constructor, by copy construction, by copy assignment from a
non-empty source (or onto an empty destination), by self copy assignment,
by `to_cpu`, `to_gpu`, `dump` and a successful `from_dump`; it is NOT
preserved by move, which nulls the source handle but leaves the source
count unchanged. -/
theorem C3_inv_preservation (gpu : Bool) (w : Nat) (h : Heap) (b other : MemoryBuffer)
    (n p : Nat) (mt tt : MemoryType) (file : List Nat)
    (hb : b.inv) (ho : other.inv)
    (hbuild : gpu = false → other.mem_type = MemoryType.PAGEABLE)
    (hsrc : other._data.isSome = true ∨ b._data = none) :
    (MemoryBuffer.mkDefault mt).inv
    ∧ (∀ hh bb, MemoryBuffer.allocate gpu w h b n mt = (hh, bb, none) → bb.inv)
    ∧ (∀ bb, MemoryBuffer.mkAdopt gpu (some p) n mt = .ok bb → bb.inv)
    ∧ (MemoryBuffer.copyCtor gpu w h other).2.inv
    ∧ (MemoryBuffer.copyAssign gpu w h b other false).2.inv
    ∧ (MemoryBuffer.copyAssign gpu w h b b true).2.inv
    ∧ (MemoryBuffer.to_cpu gpu w h b tt).2.inv
    ∧ (MemoryBuffer.to_gpu gpu w h b).2.inv
    ∧ (MemoryBuffer.dump gpu w h b).2.1.inv
    ∧ (∀ hh bb, MemoryBuffer.from_dump gpu w h file = .ok (hh, bb) → bb.inv) := by
  refine ⟨?_, ?_, ?_, ?_, ?_, ?_, ?_, ?_, ?_, ?_⟩
  · simp [MemoryBuffer.mkDefault, MemoryBuffer.inv]
  · intro hh bb heq
    by_cases h1 : gpu = false ∧ mt ≠ MemoryType.PAGEABLE
    · simp [MemoryBuffer.allocate, h1] at heq
    · by_cases h2 : n = 0
      · simp [MemoryBuffer.allocate, h1, h2] at heq
      · simp [MemoryBuffer.allocate, h1, h2] at heq
        rw [← heq.2]
        simp [MemoryBuffer.inv, h2]
  · intro bb heq
    by_cases h1 : gpu = false ∧ mt ≠ MemoryType.PAGEABLE
    · simp [MemoryBuffer.mkAdopt, h1] at heq
    · by_cases h2 : n = 0
      · simp [MemoryBuffer.mkAdopt, h1, h2] at heq
      · simp [MemoryBuffer.mkAdopt, h1, h2] at heq
        rw [← heq]
        simp [MemoryBuffer.inv, h2]
  · cases hd : other._data with
    | none =>
      have hz : other.n = 0 := ho.mp hd
      simp [MemoryBuffer.copyCtor, hd, MemoryBuffer.inv, hz]
    | some q =>
      have hcond : other.mem_type = MemoryType.PAGEABLE ∨ gpu = true := by
        cases g : gpu with
        | false => exact Or.inl (hbuild g)
        | true => exact Or.inr rfl
      have hn0 : ¬ other.n = 0 := fun hz => by
        have hcontra := ho.mpr hz
        rw [hd] at hcontra
        cases hcontra
      simp [MemoryBuffer.copyCtor, hd, hcond, MemoryBuffer.inv, hn0]
  · cases hd : other._data with
    | none =>
      have hz : other.n = 0 := ho.mp hd
      have hbnone : b._data = none := by
        rcases hsrc with hs | hs
        · rw [hd] at hs
          cases hs
        · exact hs
      simp [MemoryBuffer.copyAssign, hd, MemoryBuffer.inv, hz, hbnone]
    | some q =>
      have hcond : other.mem_type = MemoryType.PAGEABLE ∨ gpu = true := by
        cases g : gpu with
        | false => exact Or.inl (hbuild g)
        | true => exact Or.inr rfl
      have hn0 : ¬ other.n = 0 := fun hz => by
        have hcontra := ho.mpr hz
        rw [hd] at hcontra
        cases hcontra
      simp [MemoryBuffer.copyAssign, hd, hcond, MemoryBuffer.inv, hn0]
  · simpa [MemoryBuffer.copyAssign] using hb
  · exact to_cpu_keeps_inv gpu w h b tt hb
  · exact to_gpu_keeps_inv gpu w h b hb
  · exact to_cpu_keeps_inv gpu w h b MemoryType.PAGEABLE hb
  · intro hh bb heq
    by_cases hz : file.length / w = 0
    · simp [MemoryBuffer.from_dump, MemoryBuffer.mkAdopt, hz] at heq
    · simp [MemoryBuffer.from_dump, MemoryBuffer.mkAdopt, hz] at heq
      rw [← heq.2]
      simp [MemoryBuffer.inv, hz]

/-- Witness for C3 amended at a concrete state: copy construction and
`to_cpu` on a populated pageable buffer keep the invariant. -/
theorem C3_inv_preservation_witness :
    (MemoryBuffer.copyCtor false 1 ⟨[some [5]]⟩ ⟨some 0, 1, MemoryType.PAGEABLE⟩).2.inv
    ∧ (MemoryBuffer.to_cpu false 1 ⟨[some [5]]⟩ ⟨some 0, 1, MemoryType.PAGEABLE⟩
        MemoryType.PAGEABLE).2.inv := by
  have H := C3_inv_preservation false 1 ⟨[some [5]]⟩ ⟨some 0, 1, MemoryType.PAGEABLE⟩
    ⟨some 0, 1, MemoryType.PAGEABLE⟩ 2 0 MemoryType.PAGEABLE MemoryType.PAGEABLE
    [1, 2, 3] (by decide) (by decide) (fun _ => rfl) (Or.inl rfl)
  exact ⟨H.2.2.2.1, H.2.2.2.2.2.2.1⟩

/-- C7: copy construction and non-self copy assignment perform a deep copy:
the copy gets fresh storage (a different pointer), the same count and
residency, and the same bytes; writing an element of the source afterwards
does not change what is read from any element of the copy, and vice versa.
The copy-assignment part holds for any destination `dst` that does not own
the source's block (distinct live objects own distinct blocks); and self
copy assignment (`this == &other`) leaves heap and buffer unchanged. -/
theorem C7_deep_copy (gpu : Bool) (w : Nat) (h : Heap) (b dst : MemoryBuffer) (p : Nat)
    (hp : b._data = some p) (hlt : p < h.blocks.length)
    (hbuild : b.mem_type = MemoryType.PAGEABLE ∨ gpu = true)
    (hdst : ¬ dst._data = some p) :
    (∃ q, ¬ q = p
      ∧ (MemoryBuffer.copyCtor gpu w h b).2 = ⟨some q, b.n, b.mem_type⟩
      ∧ (MemoryBuffer.copyCtor gpu w h b).1.bytesAt q = (h.bytesAt p).take (b.n * w)
      ∧ (MemoryBuffer.copyCtor gpu w h b).1.bytesAt p = h.bytesAt p
      ∧ (∀ i v j, MemoryBuffer.readElem w
            (MemoryBuffer.writeElem w (MemoryBuffer.copyCtor gpu w h b).1 b i v)
            (MemoryBuffer.copyCtor gpu w h b).2 j
          = MemoryBuffer.readElem w (MemoryBuffer.copyCtor gpu w h b).1
            (MemoryBuffer.copyCtor gpu w h b).2 j)
      ∧ (∀ i v j, MemoryBuffer.readElem w
            (MemoryBuffer.writeElem w (MemoryBuffer.copyCtor gpu w h b).1
              (MemoryBuffer.copyCtor gpu w h b).2 i v) b j
          = MemoryBuffer.readElem w (MemoryBuffer.copyCtor gpu w h b).1 b j))
    ∧ (∃ q, ¬ q = p
      ∧ (MemoryBuffer.copyAssign gpu w h dst b false).2 = ⟨some q, b.n, b.mem_type⟩
      ∧ (MemoryBuffer.copyAssign gpu w h dst b false).1.bytesAt q
          = (h.bytesAt p).take (b.n * w)
      ∧ (MemoryBuffer.copyAssign gpu w h dst b false).1.bytesAt p = h.bytesAt p
      ∧ (∀ i v j, MemoryBuffer.readElem w
            (MemoryBuffer.writeElem w (MemoryBuffer.copyAssign gpu w h dst b false).1 b i v)
            (MemoryBuffer.copyAssign gpu w h dst b false).2 j
          = MemoryBuffer.readElem w (MemoryBuffer.copyAssign gpu w h dst b false).1
            (MemoryBuffer.copyAssign gpu w h dst b false).2 j)
      ∧ (∀ i v j, MemoryBuffer.readElem w
            (MemoryBuffer.writeElem w (MemoryBuffer.copyAssign gpu w h dst b false).1
              (MemoryBuffer.copyAssign gpu w h dst b false).2 i v) b j
          = MemoryBuffer.readElem w (MemoryBuffer.copyAssign gpu w h dst b false).1 b j))
    ∧ MemoryBuffer.copyAssign gpu w h b b true = (h, b) := by
  have hc : MemoryBuffer.copyCtor gpu w h b
      = ((h.alloc ((h.bytesAt p).take (b.n * w))).1,
         ⟨some h.blocks.length, b.n, b.mem_type⟩) := by
    unfold MemoryBuffer.copyCtor
    rw [hp]
    simp [hbuild, Heap.alloc]
  have hpq : ¬ p = h.blocks.length := Nat.ne_of_lt hlt
  have hqp : ¬ h.blocks.length = p := Nat.ne_of_gt hlt
  have hb1 : (if dst._data.isSome then MemoryBuffer.destructor gpu h dst else h).bytesAt p
      = h.bytesAt p := by
    by_cases hds : dst._data.isSome
    · simp [hds, destructor_bytesAt_ne gpu h dst p hdst]
    · simp [hds]
  have hl1 : (if dst._data.isSome then MemoryBuffer.destructor gpu h dst else h).blocks.length
      = h.blocks.length := by
    by_cases hds : dst._data.isSome
    · simp [hds, destructor_length]
    · simp [hds]
  have hca : MemoryBuffer.copyAssign gpu w h dst b false
      = (((if dst._data.isSome then MemoryBuffer.destructor gpu h dst else h).alloc
            (((if dst._data.isSome then MemoryBuffer.destructor gpu h dst else h).bytesAt
                p).take (b.n * w))).1,
         ⟨some (if dst._data.isSome then MemoryBuffer.destructor gpu h dst
            else h).blocks.length, b.n, b.mem_type⟩) := by
    unfold MemoryBuffer.copyAssign
    rw [hp]
    simp [hbuild, Heap.alloc]
  have hq1p : ¬ (if dst._data.isSome then MemoryBuffer.destructor gpu h dst
      else h).blocks.length = p := by
    rw [hl1]
    exact hqp
  have hpq1 : ¬ p = (if dst._data.isSome then MemoryBuffer.destructor gpu h dst
      else h).blocks.length := by
    rw [hl1]
    exact hpq
  have hplt1 : p < (if dst._data.isSome then MemoryBuffer.destructor gpu h dst
      else h).blocks.length := by
    rw [hl1]
    exact hlt
  refine ⟨⟨h.blocks.length, hqp, ?_, ?_, ?_, ?_, ?_⟩,
    ⟨(if dst._data.isSome then MemoryBuffer.destructor gpu h dst else h).blocks.length,
      hq1p, ?_, ?_, ?_, ?_, ?_⟩, ?_⟩
  · rw [hc]
  · rw [hc]
    exact Heap.bytesAt_alloc_self h _
  · rw [hc]
    exact Heap.bytesAt_alloc_lt h _ p hlt
  · intro i v j
    rw [hc]
    simp only [MemoryBuffer.writeElem, MemoryBuffer.readElem, hp]
    rw [Heap.bytesAt_writeBytes_ne _ p _ _ _ hpq]
  · intro i v j
    rw [hc]
    simp only [MemoryBuffer.writeElem, MemoryBuffer.readElem, hp]
    rw [Heap.bytesAt_writeBytes_ne _ _ p _ _ hqp]
  · rw [hca]
  · rw [hca]
    exact (Heap.bytesAt_alloc_self _ _).trans (by rw [hb1])
  · rw [hca]
    exact (Heap.bytesAt_alloc_lt _ _ p hplt1).trans hb1
  · intro i v j
    rw [hca]
    simp only [MemoryBuffer.writeElem, MemoryBuffer.readElem, hp]
    rw [Heap.bytesAt_writeBytes_ne _ p _ _ _ hpq1]
  · intro i v j
    rw [hca]
    simp only [MemoryBuffer.writeElem, MemoryBuffer.readElem, hp]
    rw [Heap.bytesAt_writeBytes_ne _ _ p _ _ hq1p]
  · simp [MemoryBuffer.copyAssign]

/-- Witness for C7 at a concrete input: a one-element pageable buffer on a
CPU-only build, copy-assigned onto a default-constructed destination. -/
theorem C7_deep_copy_witness :
    (∃ q, ¬ q = 0
      ∧ (MemoryBuffer.copyCtor false 1 ⟨[some [5]]⟩ ⟨some 0, 1, MemoryType.PAGEABLE⟩).2
          = ⟨some q, 1, MemoryType.PAGEABLE⟩)
    ∧ (∃ q, ¬ q = 0
      ∧ (MemoryBuffer.copyAssign false 1 ⟨[some [5]]⟩
          (MemoryBuffer.mkDefault MemoryType.PAGEABLE)
          ⟨some 0, 1, MemoryType.PAGEABLE⟩ false).2
          = ⟨some q, 1, MemoryType.PAGEABLE⟩)
    ∧ MemoryBuffer.copyAssign false 1 ⟨[some [5]]⟩ ⟨some 0, 1, MemoryType.PAGEABLE⟩
        ⟨some 0, 1, MemoryType.PAGEABLE⟩ true
      = (⟨[some [5]]⟩, ⟨some 0, 1, MemoryType.PAGEABLE⟩) := by
  have H := C7_deep_copy false 1 ⟨[some [5]]⟩ ⟨some 0, 1, MemoryType.PAGEABLE⟩
    (MemoryBuffer.mkDefault MemoryType.PAGEABLE) 0 rfl (by decide) (Or.inl rfl) (by decide)
  obtain ⟨⟨q, hq, hcopy, _⟩, ⟨q2, hq2, hassign, _⟩, hself⟩ := H
  exact ⟨⟨q, hq, hcopy⟩, ⟨q2, hq2, hassign⟩, hself⟩

/-- C8: for a populated host-resident buffer whose block holds exactly
`count * sizeof(T)` bytes, `dump` leaves the heap unchanged and writes
exactly those `count * sizeof(T)` raw bytes (no header), and `from_dump` of
that file yields a buffer with the same count whose block holds the same
bytes. -/
theorem C8_dump_roundtrip (gpu : Bool) (w : Nat) (h : Heap) (b : MemoryBuffer) (p : Nat)
    (hw : 0 < w) (hp : b._data = some p) (hn : 0 < b.n)
    (hhost : b.mem_type = MemoryType.PAGEABLE ∨ b.mem_type = MemoryType.PINNED)
    (hlen : (h.bytesAt p).length = b.n * w) :
    (MemoryBuffer.dump gpu w h b).1 = h
    ∧ (MemoryBuffer.dump gpu w h b).2.2 = h.bytesAt p
    ∧ (MemoryBuffer.dump gpu w h b).2.2.length = b.n * w
    ∧ ∃ h2 q, MemoryBuffer.from_dump gpu w (MemoryBuffer.dump gpu w h b).1
          (MemoryBuffer.dump gpu w h b).2.2
        = .ok (h2, ⟨some q, b.n, MemoryType.PAGEABLE⟩)
      ∧ h2.bytesAt q = h.bytesAt p := by
  have hnoop := to_cpu_host_noop gpu w h b MemoryType.PAGEABLE hhost
  have hdump1 : (MemoryBuffer.dump gpu w h b).1 = h := by
    simp [MemoryBuffer.dump, hnoop]
  have hfile : (MemoryBuffer.dump gpu w h b).2.2 = h.bytesAt p := by
    simp only [MemoryBuffer.dump, hnoop, hp]
    rw [← hlen]
    exact List.take_length _
  have hdiv : (h.bytesAt p).length / w = b.n := by
    rw [hlen]
    exact Nat.mul_div_cancel b.n hw
  refine ⟨hdump1, hfile, by rw [hfile, hlen], ?_⟩
  rw [hdump1, hfile]
  refine ⟨⟨h.blocks ++ [some (h.bytesAt p)]⟩, h.blocks.length, ?_, ?_⟩
  · have hz : ¬ (h.bytesAt p).length / w = 0 := by
      rw [hdiv]
      omega
    simp [MemoryBuffer.from_dump, MemoryBuffer.mkAdopt, hz, hdiv, hn.ne', Heap.alloc]
  · exact Heap.bytesAt_alloc_self h _

/-- Witness for C8 at a concrete input: a one-element one-byte buffer
holding byte 5. -/
theorem C8_dump_roundtrip_witness :
    (MemoryBuffer.dump false 1 ⟨[some [5]]⟩ ⟨some 0, 1, MemoryType.PAGEABLE⟩).2.2 = [5]
    ∧ ∃ h2 q, MemoryBuffer.from_dump false 1
          (MemoryBuffer.dump false 1 ⟨[some [5]]⟩ ⟨some 0, 1, MemoryType.PAGEABLE⟩).1
          (MemoryBuffer.dump false 1 ⟨[some [5]]⟩ ⟨some 0, 1, MemoryType.PAGEABLE⟩).2.2
        = .ok (h2, ⟨some q, 1, MemoryType.PAGEABLE⟩)
      ∧ h2.bytesAt q = [5] := by
  have H := C8_dump_roundtrip false 1 ⟨[some [5]]⟩ ⟨some 0, 1, MemoryType.PAGEABLE⟩ 0
    (by decide) rfl (by decide) (Or.inl rfl) (by decide)
  obtain ⟨_, hfile, _, h2, q, heq, hbytes⟩ := H
  exact ⟨hfile.trans rfl, h2, q, heq, hbytes.trans rfl⟩

end AstroIO
